import Mathlib

/-!
Verification of the arroyo filesystem sink core against its design notes.

The definitions below are shallow embeddings of the Rust sources:
  - arroyo-storage/src/lib.rs (URL parsing and the storage provider),
  - arroyo-worker/src/connectors/filesystem/mod.rs (the multipart writer
    engine, rolling policy, recovery and two-phase commit facade),
  - arroyo-worker/src/connectors/filesystem/json.rs (the JSON encoder pair).

Byte vectors are modelled as List Nat, machine integer widths do not matter
for any statement proved here. External collaborators (the object store, the
environment) are modelled as explicit inputs, and every externally visible
store operation is recorded in an explicit call trace so that theorems can
speak about the side effects a function performs.
-/

namespace Arroyo

/-! ## Storage layer: arroyo-storage/src/lib.rs -/

/-- Embeds `fn last<I, const COUNT: usize>(opts: [Option<I>; COUNT]) -> Option<I>`
(lib.rs lines 244-246): `opts.into_iter().flatten().last()`, the last `Some`
entry of the array. -/
def last {α : Type} (opts : List (Option α)) : Option α :=
  (opts.filterMap id).getLast?

/-- The named capture groups produced by the S3 URL regexes (S3_PATH,
S3_VIRTUAL, S3_ENDPOINT_URL, S3_URL in lib.rs). `bucket` is present in every
S3 regex, the rest are optional groups. -/
structure S3Captures where
  bucket : String
  region : Option String
  endpoint : Option String
  port : Option String
  protocol : Option String
  key : Option String
  deriving Repr, DecidableEq

/-- The environment as read by `parse_s3`: the resolved values of
AWS_DEFAULT_REGION, S3_REGION_ENV, AWS_ENDPOINT and S3_ENDPOINT_ENV. -/
structure S3Env where
  awsDefaultRegion : Option String
  s3RegionEnv : Option String
  awsEndpoint : Option String
  s3EndpointEnv : Option String
  deriving Repr, DecidableEq

/-- `S3Config` from lib.rs lines 114-120. -/
structure S3Config where
  endpoint : Option String
  region : Option String
  bucket : String
  key : Option String
  deriving Repr, DecidableEq

/-- Decimal digit accumulation over a character list, the semantics of a
numeric-string parse. -/
def decDigits (cs : List Char) : Option Nat :=
  cs.foldl (fun acc c =>
    match acc with
    | none => none
    | some n => if c.isDigit then some (n * 10 + (c.toNat - 48)) else none)
    (some 0)

/-- `u16::from_str` on the regex port capture: parses a non-empty digit
string and rejects values above the u16 range. -/
def parseU16 (s : String) : Option Nat :=
  match s.data with
  | [] => none
  | cs =>
      match decDigits cs with
      | some n => if n < 65536 then some n else none
      | none => none

/-- The endpoint-formatting closure inside `parse_s3` (lib.rs lines 173-192):
parses the port (443 when the capture is absent), defaults the protocol to
https, and renders `protocol://endpoint:port`. -/
def formatEndpoint (caps : S3Captures) (endpoint : String) :
    Except String String :=
  let portE : Except String Nat :=
    match caps.port with
    | some p =>
        match parseU16 p with
        | some n => Except.ok n
        | none => Except.error ("invalid port: " ++ p)
    | none => Except.ok 443
  match portE with
  | Except.error e => Except.error e
  | Except.ok port =>
      let protocol :=
        match caps.protocol with
        | some p => p
        | none => "https"
      Except.ok (protocol ++ "://" ++ endpoint ++ ":" ++ toString port)

/-- The URL-embedded endpoint source of `parse_s3`: formats the `endpoint`
capture when present, `.transpose()?` propagating a port parse failure. -/
def s3UrlEndpoint (caps : S3Captures) : Except String (Option String) :=
  match caps.endpoint with
  | none => Except.ok none
  | some e => (formatEndpoint caps e).map some

/-- `BackendConfig::parse_s3` (lib.rs lines 156-203), with the regex captures
and the environment passed in explicitly. The region is
`last([AWS_DEFAULT_REGION, S3_REGION_ENV, url region])` and the endpoint is
`last([AWS_ENDPOINT, S3_ENDPOINT_ENV, formatted url endpoint])`. -/
def parse_s3 (env : S3Env) (caps : S3Captures) : Except String S3Config :=
  let bucket := caps.bucket
  let region := last [env.awsDefaultRegion, env.s3RegionEnv, caps.region]
  match s3UrlEndpoint caps with
  | Except.error err => Except.error err
  | Except.ok urlEndpoint =>
      Except.ok
        { endpoint := last [env.awsEndpoint, env.s3EndpointEnv, urlEndpoint]
          region := region
          bucket := bucket
          key := caps.key }

/-- `last` on a three-element array keeps the latest `Some` in array order:
the third source wins, then the second, then the first. -/
theorem last_three {α : Type} (a b c : Option α) :
    last [a, b, c] =
      c.orElse (fun _ => b.orElse (fun _ => a)) := by
  cases a <;> cases b <;> cases c <;> rfl

/-! Errors of the storage provider (lib.rs lines 26-42), with the
object-store error restricted to the constructors the code distinguishes. -/

/-- The subset of `object_store::Error` that `delete_if_present` inspects:
`NotFound` is matched explicitly, everything else is handled uniformly. -/
inductive ObjectStoreError
  | notFound (path : String) (msg : String)
  | generic (store : String) (msg : String)
  deriving Repr, DecidableEq

/-- `StorageError` from lib.rs lines 26-42. -/
inductive StorageError
  | invalidUrl
  | pathError (msg : String)
  | noKeyInUrl
  | objectStore (e : ObjectStoreError)
  | credentialsError (msg : String)
  deriving Repr, DecidableEq

/-- `StorageProvider::delete_if_present` (lib.rs lines 378-385), with the
result of `self.object_store.delete(&path)` passed in: `Ok` and
`Err(NotFound)` both map to `Ok(())`, any other error is converted into
`StorageError::ObjectStore` and returned. -/
def delete_if_present (deleteResult : Except ObjectStoreError Unit) :
    Except StorageError Unit :=
  match deleteResult with
  | Except.ok _ => Except.ok ()
  | Except.error (ObjectStoreError.notFound _ _) => Except.ok ()
  | Except.error e => Except.error (StorageError.objectStore e)

/-- Claim C2, counterexample: with AWS_DEFAULT_REGION set to "env-default"
and a URL-embedded region "url-region" (the custom-endpoint URL form
similarly embedding "ep" with AWS_ENDPOINT set), `parse_s3` keeps the
URL-embedded values, not the AWS_* environment values the claim says win. -/
theorem C2_counterexample :
    parse_s3
        { awsDefaultRegion := some "env-default", s3RegionEnv := none
          awsEndpoint := some "http://env-endpoint:9", s3EndpointEnv := none }
        { bucket := "b", region := some "url-region", endpoint := some "ep"
          port := some "1234", protocol := some "http", key := none } =
      Except.ok
        { endpoint := some "http://ep:1234", region := some "url-region"
          bucket := "b", key := none } ∧
    some "url-region" ≠ some "env-default" ∧
    some "http://ep:1234" ≠ some "http://env-endpoint:9" := by
  exact ⟨by rfl, by decide, by decide⟩

/-- Claim C2 (amended): the precedence is the reverse of the claim. Later
sources override earlier ones in the order AWS_DEFAULT_REGION / AWS_ENDPOINT,
then S3_REGION_ENV / S3_ENDPOINT_ENV, then the URL-embedded value, so the
URL-embedded region and endpoint, when present, win over both environment
variables, and S3_REGION_ENV / S3_ENDPOINT_ENV win over AWS_DEFAULT_REGION /
AWS_ENDPOINT. -/
theorem C2_amended_precedence (env : S3Env) (caps : S3Captures)
    (cfg : S3Config) (h : parse_s3 env caps = Except.ok cfg) :
    cfg.region =
      caps.region.orElse
        (fun _ => env.s3RegionEnv.orElse (fun _ => env.awsDefaultRegion)) ∧
    ∃ urlEndpoint, s3UrlEndpoint caps = Except.ok urlEndpoint ∧
      cfg.endpoint =
        urlEndpoint.orElse
          (fun _ => env.s3EndpointEnv.orElse (fun _ => env.awsEndpoint)) := by
  unfold parse_s3 at h
  cases hu : s3UrlEndpoint caps with
  | error e => rw [hu] at h; simp at h
  | ok urlEndpoint =>
      rw [hu] at h
      simp only [Except.ok.injEq] at h
      subst h
      exact ⟨last_three _ _ _, urlEndpoint, rfl, last_three _ _ _⟩

/-- Claim C2 witness: the amended precedence theorem applied at a concrete
parse with every source populated. -/
theorem C2_amended_precedence_witness :
    (S3Config.mk (some "https://ep:443") (some "ur") "b" none).region =
      (some "ur" : Option String).orElse
        (fun _ => (some "er" : Option String).orElse (fun _ => some "dr")) ∧
    ∃ urlEndpoint,
      s3UrlEndpoint
          { bucket := "b", region := some "ur", endpoint := some "ep"
            port := some "443", protocol := some "https", key := none } =
        Except.ok urlEndpoint ∧
      (S3Config.mk (some "https://ep:443") (some "ur") "b" none).endpoint =
        urlEndpoint.orElse
          (fun _ => (some "ee" : Option String).orElse (fun _ => some "de")) :=
  C2_amended_precedence
    { awsDefaultRegion := some "dr", s3RegionEnv := some "er"
      awsEndpoint := some "de", s3EndpointEnv := some "ee" }
    { bucket := "b", region := some "ur", endpoint := some "ep"
      port := some "443", protocol := some "https", key := none }
    (S3Config.mk (some "https://ep:443") (some "ur") "b" none)
    (by rfl)

/-- Claim C9: `delete_if_present` returns success both when the underlying
delete succeeds and when the store reports the object as not found, and
returns the (wrapped) error for every other store error. -/
theorem C9_delete_if_present :
    delete_if_present (Except.ok ()) = Except.ok () ∧
    (∀ p m, delete_if_present (Except.error (ObjectStoreError.notFound p m)) =
      Except.ok ()) ∧
    (∀ s m, delete_if_present (Except.error (ObjectStoreError.generic s m)) =
      Except.error (StorageError.objectStore (ObjectStoreError.generic s m))) :=
  ⟨rfl, fun _ _ => rfl, fun _ _ => rfl⟩

/-! ## Checkpoint data model: arroyo-worker filesystem/mod.rs lines 168-201,
399-404 -/

/-- `InFlightPartCheckpoint` (mod.rs lines 197-201). -/
inductive InFlightPartCheckpoint
  | finishedPart (part : Nat) (contentId : String)
  | inProgressPart (part : Nat) (data : List Nat)
  deriving Repr, DecidableEq

/-- `FileCheckpointData` (mod.rs lines 175-195), the five per-file snapshot
variants. -/
inductive FileCheckpointData
  | empty
  | multiPartNotCreated (partsToAdd : List (List Nat))
      (trailingBytes : Option (List Nat))
  | multiPartInFlight (multiPartUploadId : String)
      (inFlightParts : List InFlightPartCheckpoint)
      (trailingBytes : Option (List Nat))
  | multiPartWriterClosed (multiPartUploadId : String)
      (inFlightParts : List InFlightPartCheckpoint)
  | multiPartWriterUploadCompleted (multiPartUploadId : String)
      (completedParts : List String)
  deriving Repr, DecidableEq

/-- `FileToFinish` (mod.rs lines 399-404), the pre-commit token. -/
structure FileToFinish where
  filename : String
  multiPartUploadId : String
  completedParts : List String
  deriving Repr, DecidableEq

/-- `object_store::UploadPart`: the stable content id the store returns for
an accepted part. -/
structure UploadPart where
  contentId : String
  deriving Repr, DecidableEq

/-- A deterministic model of the object-store port: what id a
`start_multipart` returns for a path, and what content id an
`add_multipart` returns for a given part upload. -/
structure Store where
  startMultipartId : String → String
  addMultipartContentId : String → String → Nat → List Nat → String

/-- One object-store operation, recorded so theorems can speak about the
calls a function performs and their order. -/
inductive StoreCall
  | startMultipart (path : String)
  | addMultipart (path : String) (multipartId : String) (partIndex : Nat)
      (data : List Nat)
  | closeMultipart (path : String) (multipartId : String)
      (parts : List UploadPart)
  deriving Repr, DecidableEq

/-- The enumerated upload loop of the `MultiPartNotCreated` arm of
`from_checkpoint` (mod.rs lines 313-319): each element of `parts_to_add` is
uploaded at its enumeration index, collecting the returned parts and the
calls in order. -/
def uploadEnumerated (store : Store) (path multipartId : String)
    (partsToAdd : List (List Nat)) : List UploadPart × List StoreCall :=
  ((partsToAdd.enum.map fun p =>
      UploadPart.mk (store.addMultipartContentId path multipartId p.1 p.2)),
   (partsToAdd.enum.map fun p =>
      StoreCall.addMultipart path multipartId p.1 p.2))

/-- `from_checkpoint` (mod.rs lines 294-397). The function-level
`let mut parts = vec![]` is the `parts` binder below; each match arm yields
the multipart id together with the value that the function-level `parts`
vector holds after the arm ran, and the list of store calls the arm made.
The final `FileToFinish` is assembled from the function-level vector exactly
as in the source (lines 392-396).

In the `MultiPartNotCreated` arm the source declares a second
`let mut parts = vec![]` (line 312) which shadows the function-level vector:
the uploads of that arm push onto the inner vector (`innerParts` below), the
inner vector is dropped when the arm ends, and the function-level `parts`
stays empty. The embedding reproduces that shadowing. -/
def from_checkpoint (store : Store) (path : String)
    (checkpointData : FileCheckpointData) :
    Option FileToFinish × List StoreCall :=
  let parts : List UploadPart := []
  let armResult : Option (String × List UploadPart × List StoreCall) :=
    match checkpointData with
    | FileCheckpointData.empty => none
    | FileCheckpointData.multiPartNotCreated partsToAdd trailingBytes =>
        let multipartId := store.startMultipartId path
        let inner := uploadEnumerated store path multipartId partsToAdd
        let innerParts := inner.1
        let innerCalls := inner.2
        let withTrailing :=
          match trailingBytes with
          | some trailing =>
              (innerParts ++
                 [UploadPart.mk (store.addMultipartContentId path multipartId
                    innerParts.length trailing)],
               innerCalls ++
                 [StoreCall.addMultipart path multipartId
                    innerParts.length trailing])
          | none => (innerParts, innerCalls)
        -- the inner vector `withTrailing.1` is dropped here; only the
        -- function-level `parts` (still empty) survives the arm
        some (multipartId, parts,
              StoreCall.startMultipart path :: withTrailing.2)
    | FileCheckpointData.multiPartInFlight multiPartUploadId inFlightParts
        trailingBytes =>
        let folded := inFlightParts.foldl
          (fun (acc : List UploadPart × List StoreCall) entry =>
            match entry with
            | InFlightPartCheckpoint.finishedPart _ contentId =>
                (acc.1 ++ [UploadPart.mk contentId], acc.2)
            | InFlightPartCheckpoint.inProgressPart part data =>
                (acc.1 ++
                   [UploadPart.mk (store.addMultipartContentId path
                      multiPartUploadId part data)],
                 acc.2 ++
                   [StoreCall.addMultipart path multiPartUploadId part data]))
          (parts, [])
        let withTrailing :=
          match trailingBytes with
          | some trailing =>
              (folded.1 ++
                 [UploadPart.mk (store.addMultipartContentId path
                    multiPartUploadId folded.1.length trailing)],
               folded.2 ++
                 [StoreCall.addMultipart path multiPartUploadId
                    folded.1.length trailing])
          | none => folded
        some (multiPartUploadId, withTrailing.1, withTrailing.2)
    | FileCheckpointData.multiPartWriterClosed multiPartUploadId
        inFlightParts =>
        -- here the source enumerates and re-uploads an in-progress part at
        -- its enumeration index, ignoring the recorded part index
        let folded := inFlightParts.enum.foldl
          (fun (acc : List UploadPart × List StoreCall) entry =>
            match entry.2 with
            | InFlightPartCheckpoint.finishedPart _ contentId =>
                (acc.1 ++ [UploadPart.mk contentId], acc.2)
            | InFlightPartCheckpoint.inProgressPart _ data =>
                (acc.1 ++
                   [UploadPart.mk (store.addMultipartContentId path
                      multiPartUploadId entry.1 data)],
                 acc.2 ++
                   [StoreCall.addMultipart path multiPartUploadId
                      entry.1 data]))
          (parts, [])
        some (multiPartUploadId, folded.1, folded.2)
    | FileCheckpointData.multiPartWriterUploadCompleted multiPartUploadId
        completedParts =>
        some (multiPartUploadId,
              parts ++ completedParts.map UploadPart.mk, [])
  match armResult with
  | none => (none, [])
  | some (multipartId, finalParts, calls) =>
      (some { filename := path
              multiPartUploadId := multipartId
              completedParts := finalParts.map (fun p => p.contentId) },
       calls)

/-- A concrete deterministic store used to evaluate recovery at concrete
checkpoints. -/
def demoStore : Store :=
  { startMultipartId := fun _ => "mp-id"
    addMultipartContentId := fun _ _ idx _ => "content-" ++ toString idx }

/-- Claim C1: recovery of a `MultiPartNotCreated` checkpoint. Evaluated on
`parts_to_add = [[42], [7]]` with `trailing_bytes = Some [9]`, the function
does start the multipart upload and upload the three parts at indices 0, 1, 2
in order, but the `FileToFinish` it returns has an empty `completed_parts`
list: the content ids land in the vector declared inside the match arm, which
shadows the function-level vector the result is built from. The claim says
`completed_parts` has one entry per uploaded part (three here); downstream,
`finish_file` skips a token with zero completed parts, so the recovered file
would never be finalized. -/
theorem C1_from_checkpoint_drops_uploaded_parts :
    from_checkpoint demoStore "f"
        (FileCheckpointData.multiPartNotCreated [[42], [7]] (some [9])) =
      (some { filename := "f", multiPartUploadId := "mp-id"
              completedParts := [] },
       [StoreCall.startMultipart "f",
        StoreCall.addMultipart "f" "mp-id" 0 [42],
        StoreCall.addMultipart "f" "mp-id" 1 [7],
        StoreCall.addMultipart "f" "mp-id" 2 [9]]) := by
  rfl

/-- `AsyncMultipartFileSystemWriter::finish_file` (mod.rs lines 630-652),
returning the store calls it performs and whether it took the warn-and-skip
branch. A token with zero completed parts is logged and skipped; otherwise
the completed parts are rebuilt as `UploadPart`s in list order and
`close_multipart` is called once with them. -/
def finish_file (fileToFinish : FileToFinish) : List StoreCall × Bool :=
  if fileToFinish.completedParts.length = 0 then
    ([], true)
  else
    let parts := fileToFinish.completedParts.map UploadPart.mk
    ([StoreCall.closeMultipart fileToFinish.filename
        fileToFinish.multiPartUploadId parts],
     false)

/-- Claim C8: committing a `FileToFinish` with an empty `completed_parts`
list warns and makes no store call; committing one with a non-empty list
calls `close_multipart` exactly once, with the content ids in list order. -/
theorem C8_finish_file (name uploadId : String) (c : String)
    (cs : List String) :
    finish_file { filename := name, multiPartUploadId := uploadId
                  completedParts := [] } = ([], true) ∧
    finish_file { filename := name, multiPartUploadId := uploadId
                  completedParts := c :: cs } =
      ([StoreCall.closeMultipart name uploadId
          ((c :: cs).map UploadPart.mk)], false) :=
  ⟨rfl, rfl⟩

/-! ## Rolling policy: mod.rs lines 406-458

`Instant` values are modelled as absolute times (Nat), with
`x.elapsed() = now - x` made explicit by a `now` argument; all times and
durations are in the same unit, so `Duration::from_secs` is the identity on
the modelled values. -/

/-- `MultiPartWriterStats` (mod.rs lines 452-458). -/
structure MultiPartWriterStats where
  bytesWritten : Nat
  partsWritten : Nat
  lastWriteAt : Nat
  firstWriteAt : Nat
  deriving Repr, DecidableEq

/-- The file-settings fields consumed by `RollingPolicy::from_file_settings`.
The `FileSettings` struct itself is generated from the connector JSON schema
(not part of the excerpt); the optional types of these fields are determined
by their uses (`unwrap_or`, `if let Some`) in mod.rs lines 431-449 and
json.rs lines 49-57. -/
structure FileSettings where
  targetPartSize : Option Nat
  maxParts : Option Nat
  targetFileSize : Option Nat
  inactivityRolloverSeconds : Option Nat
  rolloverSeconds : Option Nat
  deriving Repr, DecidableEq

/-- `Duration::from_secs` on the modelled one-unit timeline. -/
def durationFromSecs (s : Nat) : Nat := s

/-- `RollingPolicy` (mod.rs lines 406-412). -/
inductive RollingPolicy
  | partLimit (n : Nat)
  | sizeLimit (n : Nat)
  | inactivityDuration (d : Nat)
  | rolloverDuration (d : Nat)
  | anyPolicy (policies : List RollingPolicy)
  deriving Repr

mutual

/-- `RollingPolicy::should_roll` (mod.rs lines 415-429). -/
def should_roll (now : Nat) (stats : MultiPartWriterStats) :
    RollingPolicy → Bool
  | RollingPolicy.partLimit partLimitN => decide (partLimitN ≤ stats.partsWritten)
  | RollingPolicy.sizeLimit sizeLimitN => decide (sizeLimitN ≤ stats.bytesWritten)
  | RollingPolicy.inactivityDuration duration =>
      decide (duration ≤ now - stats.lastWriteAt)
  | RollingPolicy.rolloverDuration duration =>
      decide (duration ≤ now - stats.firstWriteAt)
  | RollingPolicy.anyPolicy policies => should_roll_any now stats policies

/-- `policies.iter().any(|policy| policy.should_roll(stats))`. -/
def should_roll_any (now : Nat) (stats : MultiPartWriterStats) :
    List RollingPolicy → Bool
  | [] => false
  | p :: rest => should_roll now stats p || should_roll_any now stats rest

end

/-- `RollingPolicy::from_file_settings` (mod.rs lines 431-449): the part
limit (default 1000) is always present, the size limit exactly when
`target_file_size` is set, the inactivity duration exactly when
`inactivity_rollover_seconds` is set, and the rollover duration (default
30 s) is always present. -/
def from_file_settings (fileSettings : FileSettings) : RollingPolicy :=
  let partSizeLimit := fileSettings.maxParts.getD 1000
  let policies := [RollingPolicy.partLimit partSizeLimit]
  let policies :=
    match fileSettings.targetFileSize with
    | some fileSizeTarget => policies ++ [RollingPolicy.sizeLimit fileSizeTarget]
    | none => policies
  let policies :=
    match fileSettings.inactivityRolloverSeconds.map durationFromSecs with
    | some inactivityTimeout =>
        policies ++ [RollingPolicy.inactivityDuration inactivityTimeout]
    | none => policies
  let rolloverTimeout :=
    durationFromSecs (fileSettings.rolloverSeconds.getD 30)
  RollingPolicy.anyPolicy
    (policies ++ [RollingPolicy.rolloverDuration rolloverTimeout])

/-- Claim C5: the compound policy built from the file settings fires exactly
when one of its sub-policies fires: the unconditional part limit (default
1000), the size limit exactly when `target_file_size` is configured, the
inactivity duration exactly when `inactivity_rollover_seconds` is
configured, and the unconditional rollover duration (default 30 s); and the
part-limit policy alone fires exactly when `parts_written` is at least its
threshold. -/
theorem C5_rolling_policy (fileSettings : FileSettings)
    (stats : MultiPartWriterStats) (now : Nat) :
    (should_roll now stats (from_file_settings fileSettings) = true ↔
      (fileSettings.maxParts.getD 1000 ≤ stats.partsWritten ∨
       (∃ t, fileSettings.targetFileSize = some t ∧ t ≤ stats.bytesWritten) ∨
       (∃ d, fileSettings.inactivityRolloverSeconds = some d ∧
          durationFromSecs d ≤ now - stats.lastWriteAt) ∨
       durationFromSecs (fileSettings.rolloverSeconds.getD 30) ≤
         now - stats.firstWriteAt)) ∧
    (∀ n, should_roll now stats (RollingPolicy.partLimit n) =
      decide (n ≤ stats.partsWritten)) := by
  constructor
  · rcases fileSettings with ⟨tps, mp, tfs, irs, rs⟩
    cases tfs <;> cases irs <;>
      simp [from_file_settings, should_roll, should_roll_any,
        durationFromSecs, or_assoc]
  · intro n
    simp [should_roll]

/-! ## The part-limit over a run of the writer actor

A small transition system over the events that affect the part count of the
current writer, abstracted from `AsyncMultipartFileSystemWriter::run`
(mod.rs lines 494-577) and `BatchMultipartWriter` (lines 1035-1138):

  - an insert that fills the buffering writer past `target_part_size`
    evicts one part (`insert_value`, lines 1051-1056): `parts_written`
    grows by one and the buffer is left empty;
  - an insert that stays below the target leaves the bytes buffered
    (lines 1058-1059);
  - a 100 ms policy tick (lines 555-570) closes the current writer exactly
    when it has stats and the rolling policy fires; closing flushes any
    remaining buffered bytes as one more part
    (`write_closing_multipart`, lines 1114-1137);
  - a `then_stop` checkpoint closes the current writer unconditionally
    (`stop`, lines 654-666).

Only the part-limit policy is modelled as firing; the time-based policies
may close a file earlier (with fewer parts), which is irrelevant to a
part-count upper bound. A closed file whose part count is zero is skipped
by `finish_file` and never reaches `close_multipart`, so only closes with a
positive part count are recorded as committed. -/

/-- The part-count state of the writer actor: the stats of the current
writer (`hasStats` is `self.stats.is_some()`), whether the buffering writer
holds unflushed bytes, and the part counts of the files closed so far that
reach `close_multipart`. -/
structure RollRunState where
  hasStats : Bool
  partsWritten : Nat
  bufferNonempty : Bool
  committedParts : List Nat
  deriving Repr, DecidableEq

/-- The events of the part-count transition system. -/
inductive RollEvent
  | insertEvict
  | insertBuffer
  | tick
  | stopClose
  deriving Repr, DecidableEq

/-- The number of parts a file has when the current writer is closed: the
evicted parts plus the closing flush of a non-empty buffer. -/
def partsOnClose (s : RollRunState) : Nat :=
  s.partsWritten + (if s.bufferNonempty then 1 else 0)

/-- Record a close: the part count joins the committed list when positive
(`finish_file` skips a token with zero parts), and a fresh current writer
starts with no stats, no parts and an empty buffer. -/
def closeCurrent (s : RollRunState) : RollRunState :=
  { hasStats := false, partsWritten := 0, bufferNonempty := false
    committedParts :=
      if 0 < partsOnClose s then partsOnClose s :: s.committedParts
      else s.committedParts }

/-- One step of the part-count transition system, with `maxParts` the
part-limit threshold. -/
def rollStep (maxParts : Nat) (s : RollRunState) : RollEvent → RollRunState
  | RollEvent.insertEvict =>
      { s with hasStats := true, partsWritten := s.partsWritten + 1
               bufferNonempty := false }
  | RollEvent.insertBuffer => { s with hasStats := true, bufferNonempty := true }
  | RollEvent.tick =>
      if s.hasStats ∧ maxParts ≤ s.partsWritten then closeCurrent s else s
  | RollEvent.stopClose => closeCurrent s

/-- The initial state: a fresh current writer. -/
def rollInit : RollRunState :=
  { hasStats := false, partsWritten := 0, bufferNonempty := false
    committedParts := [] }

/-- A run of the part-count transition system. -/
def runRoll (maxParts : Nat) (events : List RollEvent) : RollRunState :=
  events.foldl (rollStep maxParts) rollInit

/-- Claim C3, counterexample: with `max_parts = 1`, two part-evicting
inserts arriving between two policy ticks followed by a tick commit a file
of 2 parts, exceeding `max_parts`. The part limit is only evaluated at
timer ticks, so it is not a hard ceiling under arbitrary interleavings. -/
theorem C3_counterexample :
    2 ∈ (runRoll 1 [RollEvent.insertEvict, RollEvent.insertEvict,
          RollEvent.tick]).committedParts ∧
    ¬(2 ≤ 1) := by
  decide

/-- Writer states reachable from a fresh writer never report parts without
stats: before the first insert the part count is zero. -/
def RollInv (s : RollRunState) : Prop :=
  s.hasStats = false → s.partsWritten = 0

theorem rollStep_inv (maxParts : Nat) (s : RollRunState) (e : RollEvent)
    (h : RollInv s) : RollInv (rollStep maxParts s e) := by
  cases e with
  | insertEvict => intro hc; simp [rollStep] at hc
  | insertBuffer => intro hc; simp [rollStep] at hc
  | tick =>
      by_cases hcond : s.hasStats ∧ maxParts ≤ s.partsWritten
      · simp [rollStep, hcond, closeCurrent, RollInv]
      · simpa [rollStep, hcond] using h
  | stopClose => simp [rollStep, closeCurrent, RollInv]

theorem runRoll_inv (maxParts : Nat) (events : List RollEvent) :
    RollInv (runRoll maxParts events) := by
  have step : ∀ (s : RollRunState), RollInv s →
      RollInv (events.foldl (rollStep maxParts) s) := by
    induction events with
    | nil => intro s h; exact h
    | cons e rest ih => intro s h; exact ih _ (rollStep_inv maxParts s e h)
  exact step rollInit (by intro _; rfl)

/-- Claim C3 (amended): the part limit is enforced at policy ticks, not per
insert: whenever a tick observes the current writer with
`parts_written ≥ max_parts` it closes it, so after any tick the current
writer has fewer than `max_parts` recorded parts (for `max_parts ≥ 1`).
Between ticks, inserts may push a file past `max_parts` parts, and the
closing flush may add one more, so a committed file can exceed `max_parts`;
the ceiling holds only per tick, not over arbitrary interleavings. -/
theorem C3_amended_part_limit_at_tick (maxParts : Nat)
    (events : List RollEvent) (h : 1 ≤ maxParts) :
    (runRoll maxParts (events ++ [RollEvent.tick])).partsWritten <
      maxParts := by
  have hinv : RollInv (runRoll maxParts events) := runRoll_inv maxParts events
  rw [runRoll, List.foldl_append]
  set s := runRoll maxParts events with hs
  show (rollStep maxParts s RollEvent.tick).partsWritten < maxParts
  by_cases hcond : s.hasStats ∧ maxParts ≤ s.partsWritten
  · simpa [rollStep, hcond, closeCurrent] using h
  · have hstep : rollStep maxParts s RollEvent.tick = s := by
      simp [rollStep, hcond]
    rw [hstep]
    cases hb : s.hasStats with
    | false => have hz := hinv hb; omega
    | true =>
        have hlt : ¬ maxParts ≤ s.partsWritten := fun hle => hcond ⟨hb, hle⟩
        omega

/-- Claim C3 witness: the amended theorem applied to the empty run with
`max_parts = 1`. -/
theorem C3_amended_part_limit_at_tick_witness :
    (runRoll 1 [RollEvent.tick]).partsWritten < 1 :=
  C3_amended_part_limit_at_tick 1 [] (by decide)

/-! ## Multipart manager: mod.rs lines 700-982

Futures are modelled as descriptions of the scheduled store operation; the
panics of the source (`unreachable!`, `expect`) are modelled as
`Except.error` with the source message. -/

/-- `UploadPartOrBufferedData` (mod.rs lines 1145-1149): a pushed part slot,
either already uploaded or still buffered awaiting its callback. -/
inductive UploadPartOrBufferedData
  | uploadPart (p : UploadPart)
  | bufferedData (data : List Nat)
  deriving Repr, DecidableEq

/-- `MultipartManager` (mod.rs lines 700-709). `parts_to_add` keeps only the
byte data; the stored `part_index` of a `PartToUpload` equals its position
in the vector (lines 740-743). -/
structure MultipartManager where
  location : String
  multipartId : Option String
  pushedParts : List UploadPartOrBufferedData
  uploadedParts : Nat
  pushedSize : Nat
  partsToAdd : List (List Nat)
  closed : Bool
  deriving Repr, DecidableEq

/-- `MultipartManager::new` (mod.rs lines 712-723). -/
def MultipartManager.new (location : String) : MultipartManager :=
  { location := location, multipartId := none, pushedParts := []
    uploadedParts := 0, pushedSize := 0, partsToAdd := [], closed := false }

/-- The operation a returned future will perform when driven by the actor. -/
inductive ScheduledWork
  | initMultipart (location : String)
  | uploadPartAt (location : String) (partIndex : Nat) (data : List Nat)
  deriving Repr, DecidableEq

/-- `MultipartManager::all_uploads_finished` (mod.rs lines 848-850). -/
def MultipartManager.allUploadsFinished (m : MultipartManager) : Bool :=
  m.closed && decide (m.uploadedParts = m.pushedParts.length)

/-- `MultipartManager::write_next_part` (mod.rs lines 729-752): with a
multipart id, push a buffered slot and schedule the part upload at the slot
index; without one, enqueue the bytes into `parts_to_add` and schedule the
multipart initialization if this was the first queued part. -/
def MultipartManager.writeNextPart (m : MultipartManager) (data : List Nat) :
    MultipartManager × Option ScheduledWork :=
  match m.multipartId with
  | some _ =>
      ({ m with pushedParts :=
           m.pushedParts ++ [UploadPartOrBufferedData.bufferedData data] },
       some (ScheduledWork.uploadPartAt m.location m.pushedParts.length data))
  | none =>
      let isFirstPart := m.partsToAdd.isEmpty
      let m2 := { m with partsToAdd := m.partsToAdd ++ [data] }
      if isFirstPart then (m2, some (ScheduledWork.initMultipart m.location))
      else (m2, none)

/-- `MultipartManager::get_finished_file` (mod.rs lines 957-981). The
`unreachable!` on an open file and the `expect` on a missing multipart id
are modelled as errors carrying the source message, as is the
`unreachable!` on a still-buffered slot. -/
def MultipartManager.getFinishedFile (m : MultipartManager) :
    Except String FileToFinish :=
  if !m.closed then
    Except.error "get_finished_file called on open file"
  else
    match m.multipartId with
    | none => Except.error "finished files should have a multipart ID"
    | some multipartId =>
        match m.pushedParts.mapM (fun part =>
          match part with
          | UploadPartOrBufferedData.uploadPart p => some p.contentId
          | UploadPartOrBufferedData.bufferedData _ => none) with
        | some completed =>
            Except.ok { filename := m.location
                        multiPartUploadId := multipartId
                        completedParts := completed }
        | none => Except.error "unfinished part in get_finished_file"

/-! ## JSON encoder pair: json.rs -/

/-- `PassThrough::insert` (json.rs lines 26-28): every record immediately
becomes a ready batch. -/
def PassThrough.insert {α : Type} (value : α) : Option α := some value

/-- `PassThrough::buffered_inputs` (json.rs lines 30-32): always empty. -/
def PassThrough.bufferedInputs (α : Type) : List α := []

/-- `PassThrough::flush_buffer` (json.rs lines 34-36): `unreachable!()`,
modelled as an error. -/
def PassThrough.flushBuffer (α : Type) : Except String α :=
  Except.error "unreachable"

/-- The state of `JsonWriter` (json.rs lines 39-43): the current byte
buffer and the target part size (default 5 MiB). Serialization
(`serde_json::to_vec`) is an explicit parameter of the operations. -/
structure JsonWriterState where
  currentBuffer : List Nat
  targetPartSize : Nat
  deriving Repr, DecidableEq

/-- `JsonWriter::buffer_length` (json.rs lines 79-81). -/
def JsonWriterState.bufferLength (w : JsonWriterState) : Nat :=
  w.currentBuffer.length

/-- `JsonWriter::evict_current_buffer` (json.rs lines 83-87). -/
def JsonWriterState.evictCurrentBuffer (w : JsonWriterState) :
    JsonWriterState × List Nat :=
  ({ w with currentBuffer := [] }, w.currentBuffer)

/-- `JsonWriter::add_batch_data` (json.rs lines 68-77): append the
serialized record and a newline; evict the whole buffer when it exceeds the
target part size. -/
def JsonWriterState.addBatchData {α : Type} (w : JsonWriterState)
    (serialize : α → List Nat) (data : α) :
    JsonWriterState × Option (List Nat) :=
  let w2 := { w with currentBuffer := w.currentBuffer ++ serialize data ++ [10] }
  if w2.targetPartSize < w2.bufferLength then
    let ev := w2.evictCurrentBuffer
    (ev.1, some ev.2)
  else (w2, none)

/-- `JsonWriter::get_trailing_bytes_for_checkpoint` (json.rs lines 89-95). -/
def JsonWriterState.getTrailingBytes (w : JsonWriterState) :
    Option (List Nat) :=
  if w.currentBuffer.isEmpty then none else some w.currentBuffer

/-- `JsonWriter::close` (json.rs lines 97-108): feed the final batch if
present (returning an eviction it causes), then evict whatever remains. -/
def JsonWriterState.close {α : Type} (w : JsonWriterState)
    (serialize : α → List Nat) (finalBatch : Option α) :
    JsonWriterState × Option (List Nat) :=
  let afterFinal :=
    match finalBatch with
    | some fb => w.addBatchData serialize fb
    | none => (w, none)
  match afterFinal with
  | (w2, some bytes) => (w2, some bytes)
  | (w2, none) =>
      if w2.currentBuffer.isEmpty then (w2, none)
      else
        let ev := w2.evictCurrentBuffer
        (ev.1, some ev.2)

/-! ## Batch multipart writer, JSON sink instantiation: mod.rs lines
1004-1138 with BB = PassThrough and BBW = JsonWriter (the JsonFileSystemSink
alias, line 60). -/

/-- `BatchMultipartWriter<PassThrough<T>, JsonWriter<T>>` (mod.rs lines
1004-1012). `PassThrough` carries no state. -/
structure BatchMultipartWriter (α : Type) where
  batchBufferingWriter : JsonWriterState
  multipartManager : MultipartManager
  stats : Option MultiPartWriterStats
  deriving Repr, DecidableEq

/-- `MultiPartWriter::new` for the batch writer (mod.rs lines 1019-1029):
the path gains the suffix of the buffering writer, "json" here. -/
def BatchMultipartWriter.new (α : Type) (path : String)
    (targetPartSize : Nat) : BatchMultipartWriter α :=
  { batchBufferingWriter := { currentBuffer := [], targetPartSize }
    multipartManager := MultipartManager.new (path ++ ".json")
    stats := none }

/-- `BatchMultipartWriter::currently_buffered_data` (mod.rs lines
1093-1095): `self.batch_builder.buffered_inputs()`. -/
def BatchMultipartWriter.currentlyBufferedData {α : Type}
    (_w : BatchMultipartWriter α) : List α :=
  PassThrough.bufferedInputs α

/-- The outcome of `write_closing_multipart`: either a scheduled store
operation or the immediate `UploadsFinished` callback future. -/
inductive ClosingFutureKind
  | scheduled (work : ScheduledWork)
  | immediateUploadsFinished (name : String)
  deriving Repr, DecidableEq

/-- `BatchMultipartWriter::write_closing_multipart` (mod.rs lines
1114-1137): mark the manager closed; flush the batch builder when it holds
buffered inputs (for `PassThrough` this calls the `unreachable!`
`flush_buffer`); close the buffering writer; if bytes remain schedule one
last part upload, otherwise if all uploads are finished return the
immediate `UploadsFinished` future, otherwise nothing. -/
def writeClosingMultipart {α : Type} (serialize : α → List Nat)
    (w : BatchMultipartWriter α) :
    Except String (BatchMultipartWriter α × Option ClosingFutureKind) :=
  let manager := { w.multipartManager with closed := true }
  let finalBatchE : Except String (Option α) :=
    if !(PassThrough.bufferedInputs α).isEmpty then
      (PassThrough.flushBuffer α).map some
    else Except.ok none
  match finalBatchE with
  | Except.error e => Except.error e
  | Except.ok finalBatch =>
      match w.batchBufferingWriter.close serialize finalBatch with
      | (bw2, some bytes) =>
          let stepped := manager.writeNextPart bytes
          Except.ok
            ({ w with batchBufferingWriter := bw2
                      multipartManager := stepped.1 },
             stepped.2.map ClosingFutureKind.scheduled)
      | (bw2, none) =>
          if manager.allUploadsFinished then
            Except.ok
              ({ w with batchBufferingWriter := bw2
                        multipartManager := manager },
               some (ClosingFutureKind.immediateUploadsFinished
                 manager.location))
          else
            Except.ok
              ({ w with batchBufferingWriter := bw2
                        multipartManager := manager },
               none)

/-- `MultiPartWriter::close` for the batch writer (mod.rs lines 1097-1100):
set the manager closed, then run `write_closing_multipart`. -/
def BatchMultipartWriter.close {α : Type} (w : BatchMultipartWriter α)
    (serialize : α → List Nat) :
    Except String (BatchMultipartWriter α × Option ClosingFutureKind) :=
  writeClosingMultipart serialize
    { w with multipartManager := { w.multipartManager with closed := true } }

/-- The writer map and pending-file list of the actor
(`AsyncMultipartFileSystemWriter`, mod.rs lines 244-257), restricted to
what `process_callback` touches. -/
structure ActorState (α : Type) where
  writers : List (String × BatchMultipartWriter α)
  filesToFinish : List FileToFinish
  deriving Repr, DecidableEq

/-- The `UploadsFinished` arm of `process_callback` (mod.rs lines 621-626):
look up the writer by name, take its finished file, append it to
`files_to_finish` and drop the writer from the map. An error from
`get_finished_file` is the modelled panic of the source. -/
def processUploadsFinished {α : Type} (s : ActorState α) (name : String) :
    Except String (ActorState α) :=
  match s.writers.find? (fun p => p.1 == name) with
  | none => Except.error ("missing writer " ++ name)
  | some entry =>
      match entry.2.multipartManager.getFinishedFile with
      | Except.error e => Except.error e
      | Except.ok fileToFinish =>
          Except.ok
            { writers := s.writers.filter (fun p => !(p.1 == name))
              filesToFinish := s.filesToFinish ++ [fileToFinish] }

/-- The serialization used for concrete evaluations. -/
def demoSerialize : Nat → List Nat := fun n => [n]

/-- A JSON-sink writer on which nothing was ever inserted. -/
def demoEmptyJsonWriter : BatchMultipartWriter Nat :=
  BatchMultipartWriter.new Nat "00000-000" (5 * 1024 * 1024)

/-- `demoEmptyJsonWriter` after `close()`: only the closed flag changed. -/
def demoClosedEmptyJsonWriter : BatchMultipartWriter Nat :=
  { demoEmptyJsonWriter with
    multipartManager :=
      { demoEmptyJsonWriter.multipartManager with closed := true } }

/-- Claim C4: closing a never-written JSON-sink writer does yield the
immediate `UploadsFinished` callback with no store side effect (first
conjunct: no scheduled store operation is produced), but processing that
callback does not garbage-collect the file: `process_callback` calls
`get_finished_file`, whose `expect("finished files should have a multipart
ID")` fires because a never-written file has no multipart id — the actor
task panics instead of removing the writer entry (second conjunct). -/
theorem C4_empty_writer_close_then_callback_panics :
    demoEmptyJsonWriter.close demoSerialize =
      Except.ok (demoClosedEmptyJsonWriter,
        some (ClosingFutureKind.immediateUploadsFinished "00000-000.json")) ∧
    processUploadsFinished
        { writers := [("00000-000.json", demoClosedEmptyJsonWriter)]
          filesToFinish := [] }
        "00000-000.json" =
      Except.error "finished files should have a multipart ID" := by
  exact ⟨rfl, rfl⟩

/-- Claim C10: for the JSON sink (PassThrough batch builder), `insert`
always emits the record as a ready batch, `buffered_inputs` is always
empty, hence `currently_buffered_data` (the `buffered_data` of every
checkpoint artifact for such a writer) is always the empty list, and
`write_closing_multipart` never evaluates `PassThrough::flush_buffer`: it
returns `Ok` on every writer state, so the `unreachable!` branch is never
executed. -/
theorem C10_passthrough_sink {α : Type} (value : α)
    (serialize : α → List Nat) (w : BatchMultipartWriter α) :
    PassThrough.insert value = some value ∧
    PassThrough.bufferedInputs α = [] ∧
    w.currentlyBufferedData = [] ∧
    ∃ result, writeClosingMultipart serialize w = Except.ok result := by
  refine ⟨rfl, rfl, rfl, ?_⟩
  rcases hclose : JsonWriterState.close w.batchBufferingWriter serialize
      (α := α) none with ⟨bw2, evicted⟩
  cases evicted with
  | none =>
      simp only [writeClosingMultipart, PassThrough.bufferedInputs,
        List.isEmpty_nil, Bool.not_true, Bool.false_eq_true, if_false, hclose]
      split
      · exact ⟨_, rfl⟩
      · exact ⟨_, rfl⟩
  | some bytes =>
      simp only [writeClosingMultipart, PassThrough.bufferedInputs,
        List.isEmpty_nil, Bool.not_true, Bool.false_eq_true, if_false, hclose]
      exact ⟨_, rfl⟩

/-! ## Sink facade checkpoint: mod.rs lines 1256-1309 -/

/-- `InProgressFileCheckpoint` (mod.rs lines 168-173). -/
structure InProgressFileCheckpoint (T : Type) where
  filename : String
  data : FileCheckpointData
  bufferedData : List T
  deriving Repr, DecidableEq

/-- `FileSystemDataRecovery` (mod.rs lines 1181-1185). -/
structure FileSystemDataRecovery (T : Type) where
  nextFileIndex : Nat
  activeFiles : List (InProgressFileCheckpoint T)
  deriving Repr, DecidableEq

/-- `CheckpointData` (mod.rs lines 162-166), the messages the actor emits on
the checkpoint channel. -/
inductive CheckpointDataMsg (T : Type)
  | inProgressFileCheckpoint (c : InProgressFileCheckpoint T)
  | finished (maxFileIndex : Nat)
  deriving Repr, DecidableEq

/-- `HashMap::insert` keyed by filename: replaces the value when the key is
present, otherwise appends the entry. -/
def hashMapInsert {β : Type} (m : List (String × β)) (k : String) (v : β) :
    List (String × β) :=
  if m.any (fun p => p.1 == k) then
    m.map (fun p => if p.1 == k then (k, v) else p)
  else m ++ [(k, v)]

/-- The receive loop of `FileSystemSink::checkpoint` (mod.rs lines
1267-1308), with the accumulated pre-commit map and active-file list as
explicit accumulators. A `Finished` message returns the recovery with
`next_file_index = max_file_index + 1` together with the map; a
`MultiPartWriterUploadCompleted` artifact is inserted into the map keyed by
its filename; any other artifact is pushed unchanged onto `active_files`. A
closed channel is the final `bail!`. -/
def checkpointLoop {T : Type} (msgs : List (CheckpointDataMsg T))
    (preCommitMessages : List (String × FileToFinish))
    (activeFiles : List (InProgressFileCheckpoint T)) :
    Except String (FileSystemDataRecovery T × List (String × FileToFinish)) :=
  match msgs with
  | [] => Except.error "checkpoint receiver closed unexpectedly"
  | CheckpointDataMsg.finished maxFileIndex :: _ =>
      Except.ok
        ({ nextFileIndex := maxFileIndex + 1, activeFiles := activeFiles },
         preCommitMessages)
  | CheckpointDataMsg.inProgressFileCheckpoint c :: rest =>
      match c.data with
      | FileCheckpointData.multiPartWriterUploadCompleted multiPartUploadId
          completedParts =>
          checkpointLoop rest
            (hashMapInsert preCommitMessages c.filename
              { filename := c.filename
                multiPartUploadId := multiPartUploadId
                completedParts := completedParts })
            activeFiles
      | _ => checkpointLoop rest preCommitMessages (activeFiles ++ [c])

/-- `FileSystemSink::checkpoint` receive phase, started with empty
accumulators (mod.rs lines 1267-1268). -/
def sinkCheckpoint {T : Type} (msgs : List (CheckpointDataMsg T)) :
    Except String (FileSystemDataRecovery T × List (String × FileToFinish)) :=
  checkpointLoop msgs [] []

/-- Whether an artifact carries the `MultiPartWriterUploadCompleted`
variant. -/
def isUploadCompleted {T : Type} (c : InProgressFileCheckpoint T) : Bool :=
  match c.data with
  | FileCheckpointData.multiPartWriterUploadCompleted _ _ => true
  | _ => false

/-- The pre-commit entry an upload-completed artifact becomes. -/
def completedEntry {T : Type} (c : InProgressFileCheckpoint T) :
    Option (String × FileToFinish) :=
  match c.data with
  | FileCheckpointData.multiPartWriterUploadCompleted multiPartUploadId
      completedParts =>
      some (c.filename,
        { filename := c.filename
          multiPartUploadId := multiPartUploadId
          completedParts := completedParts })
  | _ => none

theorem checkpointLoop_spec {T : Type}
    (artifacts : List (InProgressFileCheckpoint T)) (n : Nat)
    (rest : List (CheckpointDataMsg T))
    (preCommitMessages : List (String × FileToFinish))
    (activeFiles : List (InProgressFileCheckpoint T)) :
    checkpointLoop
        (artifacts.map CheckpointDataMsg.inProgressFileCheckpoint ++
          CheckpointDataMsg.finished n :: rest)
        preCommitMessages activeFiles =
      Except.ok
        ({ nextFileIndex := n + 1
           activeFiles :=
             activeFiles ++ artifacts.filter (fun c => !isUploadCompleted c) },
         (artifacts.filterMap completedEntry).foldl
           (fun m p => hashMapInsert m p.1 p.2) preCommitMessages) := by
  induction artifacts generalizing preCommitMessages activeFiles with
  | nil => simp [checkpointLoop]
  | cons hd tl ih =>
      cases hdata : hd.data <;>
        simp [checkpointLoop, hdata, isUploadCompleted, completedEntry, ih,
          List.filter_cons, List.append_assoc]

/-- Claim C7: the sink checkpoint receive loop partitions the artifacts
emitted before the first `Finished` message: exactly those whose data is the
`MultiPartWriterUploadCompleted` variant become entries of the pre-commit
map keyed by filename, every other artifact is placed unchanged (and in
order) in the returned recovery's `active_files`, the recovery's
`next_file_index` is the finished `max_file_index` plus one, and the loop
returns at the `Finished` message, ignoring anything after it. -/
theorem C7_checkpoint_partition {T : Type}
    (artifacts : List (InProgressFileCheckpoint T)) (n : Nat)
    (rest : List (CheckpointDataMsg T)) :
    sinkCheckpoint
        (artifacts.map CheckpointDataMsg.inProgressFileCheckpoint ++
          CheckpointDataMsg.finished n :: rest) =
      Except.ok
        ({ nextFileIndex := n + 1
           activeFiles := artifacts.filter (fun c => !isUploadCompleted c) },
         (artifacts.filterMap completedEntry).foldl
           (fun m p => hashMapInsert m p.1 p.2) []) := by
  simpa [sinkCheckpoint] using
    checkpointLoop_spec artifacts n rest [] []

/-! ## File-index monotonicity over runs and restarts

A transition system over the file indices managed by
`AsyncMultipartFileSystemWriter::run` (mod.rs lines 494-577),
`new_writer` (lines 579-589) and `FileSystemSink::init` / `checkpoint`
(lines 1199-1223, 1269-1279):

  - a fresh run starts with `max_file_index = 0` and the current writer at
    that index (the `Init` arm, lines 508-518);
  - a policy roll increments `max_file_index` and opens the new current
    writer at the incremented value (lines 563-566);
  - a writer whose uploads finish leaves the writer map and its token joins
    `files_to_finish` (lines 610-626);
  - a commit finalizes the pending tokens (lines 543-548);
  - a restart replays `init`: the new `max_file_index` is the maximum of
    the recovered `next_file_index` values, which include this subtask's
    own `max_file_index + 1` (lines 1204-1213); live writers of the old run
    come back as recovered files to finish, and committed files carry over.

Indices stand for the files: the file at index i of a subtask is the one
written by the writer opened at that index. -/

/-- The index state of one subtask's writer actor. -/
structure SinkIndexState where
  maxFileIndex : Nat
  currentIndex : Nat
  liveIndices : List Nat
  pendingIndices : List Nat
  committedIndices : List Nat
  deriving Repr, DecidableEq

/-- The events that move file indices. `restart` carries the
`next_file_index` values recovered from the other subtasks. -/
inductive SinkIndexEvent
  | roll
  | uploadsFinished (i : Nat)
  | commitFiles
  | restart (others : List Nat)
  deriving Repr, DecidableEq

/-- A fresh subtask: `max_file_index = 0`, current writer at index 0. -/
def sinkInit : SinkIndexState :=
  { maxFileIndex := 0, currentIndex := 0, liveIndices := [0]
    pendingIndices := [], committedIndices := [] }

/-- One step of the index transition system. -/
def sinkStep (s : SinkIndexState) : SinkIndexEvent → SinkIndexState
  | SinkIndexEvent.roll =>
      let newMax := s.maxFileIndex + 1
      { s with maxFileIndex := newMax, currentIndex := newMax
               liveIndices := newMax :: s.liveIndices }
  | SinkIndexEvent.uploadsFinished i =>
      if i ∈ s.liveIndices then
        { s with liveIndices := s.liveIndices.erase i
                 pendingIndices := i :: s.pendingIndices }
      else s
  | SinkIndexEvent.commitFiles =>
      { s with pendingIndices := []
               committedIndices := s.pendingIndices ++ s.committedIndices }
  | SinkIndexEvent.restart others =>
      let newMax := Nat.max (s.maxFileIndex + 1) (others.foldr Nat.max 0)
      { maxFileIndex := newMax, currentIndex := newMax
        liveIndices := [newMax]
        pendingIndices := s.pendingIndices ++ s.liveIndices
        committedIndices := s.committedIndices }

/-- A run of the index transition system from a fresh subtask. -/
def sinkRun (events : List SinkIndexEvent) : SinkIndexState :=
  events.foldl sinkStep sinkInit

/-- The `next_file_index` a checkpoint taken in state `s` reports:
`max_file_index + 1` (mod.rs line 1274). -/
def sinkCheckpointNext (s : SinkIndexState) : Nat := s.maxFileIndex + 1

/-- Every file index tracked by the actor is bounded by the current
`max_file_index`. -/
def IndexInv (s : SinkIndexState) : Prop :=
  (∀ i ∈ s.liveIndices, i ≤ s.maxFileIndex) ∧
  (∀ i ∈ s.pendingIndices, i ≤ s.maxFileIndex) ∧
  (∀ i ∈ s.committedIndices, i ≤ s.maxFileIndex)

theorem sinkStep_inv (s : SinkIndexState) (e : SinkIndexEvent)
    (h : IndexInv s) : IndexInv (sinkStep s e) := by
  obtain ⟨hl, hp, hc⟩ := h
  cases e with
  | roll =>
      refine ⟨?_, ?_, ?_⟩ <;> intro i hi <;> simp [sinkStep] at hi ⊢
      · rcases hi with hi | hi
        · omega
        · exact le_trans (hl i hi) (Nat.le_succ _)
      · exact le_trans (hp i hi) (Nat.le_succ _)
      · exact le_trans (hc i hi) (Nat.le_succ _)
  | uploadsFinished j =>
      by_cases hj : j ∈ s.liveIndices
      · refine ⟨?_, ?_, ?_⟩ <;> intro i hi <;> simp [sinkStep, hj] at hi ⊢
        · exact hl i (List.mem_of_mem_erase hi)
        · rcases hi with hi | hi
          · exact hi ▸ hl j hj
          · exact hp i hi
        · exact hc i hi
      · simpa [sinkStep, hj] using ⟨hl, hp, hc⟩
  | commitFiles =>
      refine ⟨?_, ?_, ?_⟩ <;> intro i hi <;> simp [sinkStep] at hi ⊢
      · exact hl i hi
      · rcases hi with hi | hi
        · exact hp i hi
        · exact hc i hi
  | restart others =>
      have hstep : s.maxFileIndex + 1 ≤
          Nat.max (s.maxFileIndex + 1) (others.foldr Nat.max 0) :=
        Nat.le_max_left _ _
      refine ⟨?_, ?_, ?_⟩ <;> intro i hi <;> simp only [sinkStep] at hi ⊢
      · exact le_of_eq (List.mem_singleton.mp hi)
      · rcases List.mem_append.mp hi with hi | hi
        · exact le_trans (le_trans (hp i hi) (Nat.le_succ _)) hstep
        · exact le_trans (le_trans (hl i hi) (Nat.le_succ _)) hstep
      · exact le_trans (le_trans (hc i hi) (Nat.le_succ _)) hstep

theorem sinkRun_inv (events : List SinkIndexEvent) :
    IndexInv (sinkRun events) := by
  have step : ∀ (s : SinkIndexState), IndexInv s →
      IndexInv (events.foldl sinkStep s) := by
    induction events with
    | nil => intro s h; exact h
    | cons e rest ih => intro s h; exact ih _ (sinkStep_inv s e h)
  refine step sinkInit ⟨?_, ?_, ?_⟩ <;> intro i hi <;>
    simp [sinkInit] at hi ⊢ <;> omega

/-- Claim C6: along any run of the index transition system, every committed
file index is strictly below the `next_file_index` a checkpoint taken now
would report (`max_file_index + 1`), and `max_file_index` never decreases
under any event, a restart included (it jumps to at least
`max_file_index + 1`, the subtask's own recovered `next_file_index`), so
the file index is monotonic during a run and survives recovery. -/
theorem C6_monotone_file_index (events : List SinkIndexEvent) :
    (∀ i ∈ (sinkRun events).committedIndices,
      i < sinkCheckpointNext (sinkRun events)) ∧
    (∀ e, (sinkRun events).maxFileIndex ≤
      (sinkStep (sinkRun events) e).maxFileIndex) := by
  constructor
  · intro i hi
    have h := (sinkRun_inv events).2.2 i hi
    simp [sinkCheckpointNext]; omega
  · intro e
    cases e with
    | roll => simp [sinkStep]
    | uploadsFinished j =>
        by_cases hj : j ∈ (sinkRun events).liveIndices <;> simp [sinkStep, hj]
    | commitFiles => simp [sinkStep]
    | restart others =>
        simp only [sinkStep]
        exact le_trans (Nat.le_succ _) (Nat.le_max_left _ _)

/-- Claim C6 witness: a run that rolls once, finishes the first file and
commits it; the committed index 0 is strictly below the next file index. -/
theorem C6_monotone_file_index_witness :
    (0 : Nat) <
      sinkCheckpointNext (sinkRun [SinkIndexEvent.roll,
        SinkIndexEvent.uploadsFinished 0, SinkIndexEvent.commitFiles]) :=
  (C6_monotone_file_index
    [SinkIndexEvent.roll, SinkIndexEvent.uploadsFinished 0,
     SinkIndexEvent.commitFiles]).1 0 (by decide)

end Arroyo
